import Mathlib

/-!
Shallow embedding of the container-execution engine in `src/main.rs`
(a minimal docker-style `run` command written in Rust).

The program's pure logic (path manipulation, image-reference parsing,
argument indexing, permission modes, exit-code policy) is translated into
executable Lean definitions.  The effectful parts (`run_child`, lines
31-60 of the source) are embedded as an explicit step sequence over a
small system state: host paths are lists of components, the filesystem
root switch (`chroot`) is a prefix that path resolution prepends, and the
`TempDir` destructor is an explicit removal step executed on every exit
path of `run_child`, exactly where Rust's scope-based drop runs it.
Fallible host operations (tempdir creation, file copies, `chroot`,
`set_current_dir`, spawn, wait) are driven by an `Env` of oracle outcomes
so that every control path of the source is represented.
-/

/-- A host path, as its list of components (no separators, no empties). -/
abbrev HostPath := List String

/-! ### Path strings

`copy_command` (src/main.rs lines 62-72) manipulates the command path as a
string: `trim_start_matches("/")` strips leading slashes, `Path::join`
appends the remainder to the temp directory.  The operating system then
resolves the resulting path; `.` components stay in place and `..`
components pop one level (stopping at the root).  We model a path string
by splitting on `/`, dropping empty and `.` components, and resolving
`..` with `normalizePath`. -/

/-- Splitting a character list on `/`, keeping empty fields (the exact
field structure Rust's `split` would produce). -/
def splitOnSlash : List Char → List (List Char)
  | [] => [[]]
  | c :: rest =>
    match splitOnSlash rest with
    | [] => [[]]
    | f :: fs => if c = '/' then [] :: f :: fs else (c :: f) :: fs

/-- The components of a path string: split on `/`, drop empty fields and
`.` fields (both are no-ops for OS path resolution). -/
def pathComponents (s : String) : List String :=
  ((splitOnSlash s.data).map String.mk).filter (fun c => c != "" && c != ".")

/-- Rust `command.trim_start_matches("/")` (src/main.rs line 65): strip
every leading `/` character. -/
def trimLeadingSlashes (s : String) : String :=
  String.mk (s.data.dropWhile (fun c => c = '/'))

/-- One step of OS path resolution: `..` pops one component (staying put
at the root), any other component is appended. -/
def normStep (stack : List String) (c : String) : List String :=
  if c = ".." then stack.dropLast else stack ++ [c]

/-- OS resolution of `..` components in a component list. -/
def normalizePath (cs : List String) : List String := cs.foldl normStep []

/-- The host path at which `copy_command` (src/main.rs lines 62-72) lands
the copied command file: the temp directory path joined with the
slash-stripped command path, as the OS resolves it.  The source computes
`temp_dir.path().join(command.trim_start_matches("/"))` and copies to it
with no further validation. -/
def copy_command_target (tempPath : HostPath) (command : String) : HostPath :=
  normalizePath (tempPath ++ pathComponents (trimLeadingSlashes command))

/-- Whether `p` lies strictly inside the directory `root` (it extends
`root` and is not `root` itself). -/
def isStrictlyInside (root p : HostPath) : Bool :=
  (p.take root.length == root) && (p != root)

/-! ### Image-reference parsing

`pull_image` (src/main.rs lines 87-90) does
`image_name.split(':').collect()` and then indexes fields `[0]` and `[1]`.
Indexing past the end of the collected vector is an out-of-bounds panic,
not an error return. -/

/-- Splitting a character list on `:`, keeping empty fields, exactly as
Rust's `split(':').collect::<Vec<_>>()` produces them. -/
def splitOnColon : List Char → List (List Char)
  | [] => [[]]
  | c :: rest =>
    match splitOnColon rest with
    | [] => [[]]
    | f :: fs => if c = ':' then [] :: f :: fs else (c :: f) :: fs

/-- Number of `:` characters in the input. -/
def countColons (cs : List Char) : Nat := (cs.filter (fun c => c == ':')).length

/-- Outcome of the image-reference parse at src/main.rs lines 88-90. -/
inductive ImageRefParse
  | ok (name tag : List Char)
  | panicIndexOOB
deriving DecidableEq, Repr

/-- The parse performed by `pull_image` (src/main.rs lines 88-90): collect
the `:`-separated fields and take fields `[0]` and `[1]`.  Fewer than two
fields means the `image_tag[1]` indexing panics. -/
def parse_image_ref (image_name : List Char) : ImageRefParse :=
  match splitOnColon image_name with
  | a :: b :: _ => .ok a b
  | _ => .panicIndexOOB

/-! ### Argument vector handling in `main` (src/main.rs lines 15-23) -/

/-- Outcome of `main`'s argument reads. -/
inductive MainStart
  | panicIndexOutOfBounds (idx : Nat)
  | proceed (command : String) (command_args : List String) (image : String)
deriving DecidableEq, Repr

/-- The argument reads of `main` (src/main.rs lines 16-19), in source
order: `&args[3]` (panics out of bounds), `&args[4..]` (in bounds once
index 3 succeeded), `&args[2]` (in bounds once index 3 succeeded). -/
def main_read_args (argv : List String) : MainStart :=
  match argv[3]? with
  | none => .panicIndexOutOfBounds 3
  | some command =>
    let command_args := argv.drop 4
    match argv[2]? with
    | none => .panicIndexOutOfBounds 2
    | some image => .proceed command command_args image

/-! ### Unix permission modes (`create_dev_null`, src/main.rs lines 74-85) -/

/-- The three permission classes of a Unix mode. -/
inductive Principal
  | owner
  | group
  | other
deriving DecidableEq, Repr

/-- The three-bit permission field of `mode` for the given class. -/
def classBits (mode : Nat) : Principal → Nat
  | .owner => mode / 64 % 8
  | .group => mode / 8 % 8
  | .other => mode % 8

/-- Read bit of the class's permission field. -/
def canRead (mode : Nat) (pr : Principal) : Bool := classBits mode pr / 4 % 2 == 1

/-- Write bit of the class's permission field. -/
def canWrite (mode : Nat) (pr : Principal) : Bool := classBits mode pr / 2 % 2 == 1

/-- Execute bit of the class's permission field. -/
def canExec (mode : Nat) (pr : Principal) : Bool := classBits mode pr % 2 == 1

/-- Mode set on the `dev` directory, src/main.rs line 77:
`Permissions::from_mode(0o555)`. -/
def dev_dir_mode : Nat := 0o555

/-- Mode set on the `dev/null` file, src/main.rs line 81:
`Permissions::from_mode(0o555)`. -/
def dev_null_mode : Nat := 0o555

/-- A filesystem node created inside the sandbox root. -/
structure FsNode where
  path : HostPath
  mode : Nat
  isDir : Bool
deriving DecidableEq, Repr

/-- The nodes `create_dev_null` (src/main.rs lines 74-85) creates under
the sandbox root: the `dev` directory and the `dev/null` placeholder
file, both with mode `0o555`. -/
def create_dev_null_nodes : List FsNode :=
  [{ path := ["dev"], mode := dev_dir_mode, isDir := true },
   { path := ["dev", "null"], mode := dev_null_mode, isDir := false }]

/-! ### Spawn and wait (src/main.rs lines 48-59) -/

/-- The configuration of a standard stream for a spawned child. -/
inductive StdioMode
  | null
  | inherited
  | piped
deriving DecidableEq, Repr

/-- The standard-input configuration `run_child` passes to the spawn,
src/main.rs line 50: `Stdio::null()`. -/
def run_child_spawn_stdin : StdioMode := .null

/-- Exit-code policy at src/main.rs line 59:
`child.wait()?.code().unwrap_or(1)` — the child's exit code when it has
one, `1` when the child was terminated by a signal. -/
def wait_exit_code (code : Option Int) : Int := code.getD 1

/-- Rust `Debug` rendering of a list of strings, element by element
(quote-escaping of special characters inside the strings is not
modelled; the arguments here are plain words). -/
def rustDebugStrings : List String → String
  | [] => ""
  | [a] => "\x22" ++ a ++ "\x22"
  | a :: b :: rest => "\x22" ++ a ++ "\x22, " ++ rustDebugStrings (b :: rest)

/-- Rust `{:?}` rendering of a `Vec<String>`. -/
def rustDebugList (xs : List String) : String := "[" ++ rustDebugStrings xs ++ "]"

/-- The spawn-failure context message built at src/main.rs lines 52-57:
`format!("Tried to run '{}' with arguments {:?}", command, command_args)`. -/
def spawn_error_context (command : String) (command_args : List String) : String :=
  "Tried to run \x27" ++ command ++ "\x27 with arguments " ++ rustDebugList command_args

/-! ### The invocation state machine (`run_child`, src/main.rs lines 31-60)

`run_child` performs a fixed sequence of fallible host operations.  We
record the sequence as an event trace and thread a small system state:
which host directories exist, the current chroot prefix, and the current
working directory.  Crucially, line 38 of the source calls the `async fn
pull_image` from a non-async function **without `.await`** and discards
the returned future, so the body of `pull_image` never executes during an
invocation and its `Result` is never inspected; the embedding therefore
contributes no pull events and consults no pull outcome in `run_child`.
The body `pull_image` *would* run when awaited is embedded separately as
`pull_image_body` below. -/

/-- Errors of the embedded program (the `anyhow` error at each `?`). -/
inductive Err
  | ioError
  | authError
  | manifestError
  | layerError
  | spawnError (msg : String)
deriving DecidableEq, Repr

/-- One observable step of an invocation. -/
inductive Event
  | mkTempDir (path : HostPath)
  | copyCommandEvt (target : HostPath)
  | createDevNullEvt
  | fetchToken
  | fetchManifest
  | fetchLayer (digest : String)
  | extractLayer (digest : String)
  | chrootEvt (newRoot : HostPath)
  | setCwdEvt (dir : HostPath)
  | unshareEvt (result : Int)
  | spawnEvt (stdin : StdioMode)
  | waitEvt
  | dropTempDirEvt (removed : Bool)
deriving DecidableEq, Repr

/-- Whether an event belongs to the image pull (token fetch, manifest
fetch, layer download, layer extraction). -/
def isPullEvent : Event → Bool
  | .fetchToken => true
  | .fetchManifest => true
  | .fetchLayer _ => true
  | .extractLayer _ => true
  | _ => false

/-- System state threaded through an invocation: the chroot prefix the
process currently resolves paths under (`[]` before the root switch), the
host directories that exist, and the working directory (host view). -/
structure Sys where
  chrootDir : HostPath
  hostDirs : List HostPath
  cwd : HostPath
deriving DecidableEq, Repr

/-- Path resolution by the operating system for this process: the current
chroot prefix is prepended to the path being resolved (spec section 4.3:
after the root switch no path outside the former root is reachable). -/
def resolveHost (s : Sys) (p : HostPath) : HostPath := s.chrootDir ++ p

/-- The `TempDir` destructor (see the comment at src/main.rs line 33 and
tempfile's documentation): `remove_dir_all` on the directory's recorded
path, resolved under the process's *current* root; a failed removal is
silently ignored.  Returns the new state and whether the host directory
was actually removed. -/
def removeTempDir (s : Sys) (p : HostPath) : Sys × Bool :=
  let resolved := resolveHost s p
  if resolved ∈ s.hostDirs then
    ({ s with hostDirs := s.hostDirs.erase resolved }, true)
  else (s, false)

/-- Oracle outcomes for the fallible host operations of one invocation.
`pullResult` is the outcome the dropped `pull_image` future would produce
if it were polled; the body of `run_child` never reads it (line 38 drops
the future without awaiting it). -/
structure Env where
  tempPath : HostPath
  tempdirOk : Bool
  copyOk : Bool
  devOk : Bool
  pullResult : Except Err Unit
  chrootOk : Bool
  setCwdOk : Bool
  spawnOk : Bool
  waitOk : Bool
  waitCode : Option Int

/-- Result of one embedded invocation. -/
structure RunResult where
  trace : List Event
  sys : Sys
  result : Except Err Int

/-- The body of `run_child` (src/main.rs lines 31-60), step by step.
Every `?` early return and the final return run the `TempDir` destructor
(scope-based drop) before leaving; the destructor acts under whatever
chroot prefix is in force at that moment. -/
def run_child (command : String) (command_args : List String) (image : String)
    (env : Env) (unshareResult : Int) : RunResult :=
  -- line 34: `let temp_dir = tempfile::tempdir()?;`
  if !env.tempdirOk then
    { trace := [], sys := { chrootDir := [], hostDirs := [], cwd := [] },
      result := .error .ioError }
  else
    let t := env.tempPath
    let s1 : Sys := { chrootDir := [], hostDirs := [t], cwd := [] }
    let tr1 := [Event.mkTempDir t]
    -- line 36: `copy_command(command, &temp_dir)?;`
    if !env.copyOk then
      let dropped := removeTempDir s1 t
      { trace := tr1 ++ [Event.dropTempDirEvt dropped.2], sys := dropped.1,
        result := .error .ioError }
    else
      let tr2 := tr1 ++ [Event.copyCommandEvt (copy_command_target t command)]
      -- line 37: `create_dev_null(&temp_dir)?;`
      if !env.devOk then
        let dropped := removeTempDir s1 t
        { trace := tr2 ++ [Event.dropTempDirEvt dropped.2], sys := dropped.1,
          result := .error .ioError }
      else
        let tr3 := tr2 ++ [Event.createDevNullEvt]
        -- line 38: `pull_image(image, &temp_dir...);` — an `async fn` called
        -- without `.await` from a non-async fn: the returned future is dropped
        -- immediately, so the pull body never executes (no events) and
        -- `env.pullResult` is never consulted.
        -- line 40: `chroot(temp_dir.path())?;`
        if !env.chrootOk then
          let dropped := removeTempDir s1 t
          { trace := tr3 ++ [Event.dropTempDirEvt dropped.2], sys := dropped.1,
            result := .error .ioError }
        else
          let s2 : Sys := { s1 with chrootDir := resolveHost s1 t }
          let tr4 := tr3 ++ [Event.chrootEvt s2.chrootDir]
          -- line 42: `set_current_dir("/")?;`
          if !env.setCwdOk then
            let dropped := removeTempDir s2 t
            { trace := tr4 ++ [Event.dropTempDirEvt dropped.2], sys := dropped.1,
              result := .error .ioError }
          else
            let s3 : Sys := { s2 with cwd := s2.chrootDir }
            let tr5 := tr4 ++ [Event.setCwdEvt s3.cwd]
            -- lines 44-46: `libc::unshare(libc::CLONE_NEWPID);` — the return
            -- value is discarded; nothing below depends on `unshareResult`.
            let tr6 := tr5 ++ [Event.unshareEvt unshareResult]
            -- lines 48-57: `Command::new(command).args(command_args)
            --   .stdin(Stdio::null()).spawn().with_context(...)?` — the spawn
            -- is always attempted here (its event is recorded whether or not
            -- it succeeds).
            let tr7 := tr6 ++ [Event.spawnEvt run_child_spawn_stdin]
            if !env.spawnOk then
              let dropped := removeTempDir s3 t
              { trace := tr7 ++ [Event.dropTempDirEvt dropped.2], sys := dropped.1,
                result := .error (.spawnError (spawn_error_context command command_args)) }
            else
              -- line 59: `Ok(child.wait()?.code().unwrap_or(1))`
              if !env.waitOk then
                let dropped := removeTempDir s3 t
                { trace := tr7 ++ [Event.dropTempDirEvt dropped.2], sys := dropped.1,
                  result := .error .ioError }
              else
                let dropped := removeTempDir s3 t
                { trace := tr7 ++ [Event.waitEvt, Event.dropTempDirEvt dropped.2],
                  sys := dropped.1,
                  result := .ok (wait_exit_code env.waitCode) }

/-! ### The body of `pull_image` (src/main.rs lines 87-143)

What the dropped future would do if it were awaited: parse the image
reference, fetch a token, fetch the manifest, then download, decompress
and extract each listed layer strictly in manifest order, stopping at the
first failure. -/

/-- A manifest layer record (src/main.rs lines 153-157). -/
structure Layer where
  mediaType : String
  digest : String
deriving DecidableEq, Repr

/-- Oracle outcomes for the network operations of a pull. -/
structure PullEnv where
  tokenResult : Except Err String
  manifestResult : Except Err (List Layer)
  blobResult : String → Except Err Unit

/-- Outcome of running the pull body. -/
inductive PullOutcome
  | panicked
  | failed (e : Err)
  | pulled
deriving DecidableEq, Repr

/-- The per-layer loop of `pull_image` (src/main.rs lines 120-140):
download the blob by digest, then decompress and extract it into the
target directory, one layer at a time, in manifest order. -/
def pull_layers (penv : PullEnv) : List Layer → List Event → List Event × PullOutcome
  | [], tr => (tr, .pulled)
  | layer :: rest, tr =>
    match penv.blobResult layer.digest with
    | .error e => (tr ++ [Event.fetchLayer layer.digest], .failed e)
    | .ok _ =>
      pull_layers penv rest (tr ++ [Event.fetchLayer layer.digest, Event.extractLayer layer.digest])

/-- The body of `pull_image` (src/main.rs lines 87-143) as it would run if
awaited: parse `name:tag` (panicking on a missing colon), fetch the
access token, fetch the manifest, then fetch and extract the layers in
manifest order, propagating the first error. -/
def pull_image_body (image_name : String) (penv : PullEnv) : List Event × PullOutcome :=
  match parse_image_ref image_name.data with
  | .panicIndexOOB => ([], .panicked)
  | .ok _ _ =>
    match penv.tokenResult with
    | .error e => ([Event.fetchToken], .failed e)
    | .ok _ =>
      match penv.manifestResult with
      | .error e => ([Event.fetchToken, Event.fetchManifest], .failed e)
      | .ok layers => pull_layers penv layers [Event.fetchToken, Event.fetchManifest]

/-- A fully successful environment for a concrete invocation
`run alpine:latest /bin/echo hello`, temp directory `/tmp/sandbox`. -/
def envAllOk : Env :=
  { tempPath := ["tmp", "sandbox"], tempdirOk := true, copyOk := true, devOk := true,
    pullResult := .ok (), chrootOk := true, setCwdOk := true, spawnOk := true,
    waitOk := true, waitCode := some 0 }

/-- The same environment with the (never-consulted) pull outcome set to a
failure. -/
def envPullFails : Env := { envAllOk with pullResult := .error .authError }

/-- The staging operation `copy_command` (src/main.rs lines 62-72): strip
leading slashes, join under the temp directory, create parent directories
and copy the file there.  The source performs no validation of the
computed target path; every command path is accepted and staged at
`copy_command_target`. -/
def copy_command (tempPath : HostPath) (command : String) : Except Err HostPath :=
  .ok (copy_command_target tempPath command)

/-! ## Supporting lemmas -/

/-- Folding path resolution over components that contain no `..` simply
appends them to the accumulator. -/
theorem foldl_normStep_of_no_dotdot (cs : List String) :
    ∀ acc : List String, ".." ∉ cs → List.foldl normStep acc cs = acc ++ cs := by
  induction cs with
  | nil => intro acc _; simp
  | cons c rest ih =>
    intro acc h
    have hc : c ≠ ".." := fun he => h (he ▸ List.mem_cons_self _ _)
    have hr : ".." ∉ rest := fun hm => h (List.mem_cons_of_mem _ hm)
    rw [List.foldl_cons, ih _ hr]
    simp [normStep, hc]

/-- Splitting on `:` always yields at least one field. -/
theorem splitOnColon_ne_nil (cs : List Char) : splitOnColon cs ≠ [] := by
  cases cs with
  | nil => simp [splitOnColon]
  | cons c rest =>
    simp only [splitOnColon]
    cases h : splitOnColon rest with
    | nil => simp
    | cons f fs => by_cases hc : c = ':' <;> simp [hc]

/-- A colon-free input is a single field. -/
theorem splitOnColon_of_no_colon (cs : List Char) (h : ':' ∉ cs) :
    splitOnColon cs = [cs] := by
  induction cs with
  | nil => rfl
  | cons c rest ih =>
    have hc : c ≠ ':' := fun he => h (he ▸ List.mem_cons_self _ _)
    have hr : ':' ∉ rest := fun hm => h (List.mem_cons_of_mem _ hm)
    simp [splitOnColon, ih hr, hc]

/-- Splitting at the first colon: a colon-free prefix becomes the first
field. -/
theorem splitOnColon_append (a b : List Char) (h : ':' ∉ a) :
    splitOnColon (a ++ ':' :: b) = a :: splitOnColon b := by
  induction a with
  | nil =>
    simp only [List.nil_append, splitOnColon]
    cases hb : splitOnColon b with
    | nil => exact absurd hb (splitOnColon_ne_nil b)
    | cons f fs => simp
  | cons c rest ih =>
    have hc : c ≠ ':' := fun he => h (he ▸ List.mem_cons_self _ _)
    have hr : ':' ∉ rest := fun hm => h (List.mem_cons_of_mem _ hm)
    simp [splitOnColon, ih hr, hc]

/-- The number of fields is the number of colons plus one. -/
theorem length_splitOnColon (cs : List Char) :
    (splitOnColon cs).length = countColons cs + 1 := by
  induction cs with
  | nil => rfl
  | cons c rest ih =>
    cases h : splitOnColon rest with
    | nil => exact absurd h (splitOnColon_ne_nil rest)
    | cons f fs =>
      rw [h] at ih
      by_cases hc : c = ':'
      · subst hc
        simp [splitOnColon, h, countColons, List.filter_cons] at ih ⊢
        omega
      · simp [splitOnColon, h, hc, countColons, List.filter_cons] at ih ⊢
        omega

/-- Appending strings concatenates their character lists. -/
theorem strData_append (s t : String) : (s ++ t).data = s.data ++ t.data := by
  cases s; cases t; rfl

/-- The `Debug` rendering of a string list contains each element's
characters contiguously. -/
theorem rustDebugStrings_names_each (as : List String) (a : String) :
    a ∈ as → ∃ l r, (rustDebugStrings as).data = l ++ a.data ++ r := by
  induction as with
  | nil => intro h; cases h
  | cons x rest ih =>
    intro h
    rcases List.mem_cons.mp h with rfl | h₂
    · cases rest with
      | nil =>
        exact ⟨"\x22".data, "\x22".data, by simp [rustDebugStrings, strData_append]⟩
      | cons y rest₂ =>
        exact ⟨"\x22".data, ("\x22, " ++ rustDebugStrings (y :: rest₂)).data, by
          simp [rustDebugStrings, strData_append, List.append_assoc]⟩
    · cases rest with
      | nil => cases h₂
      | cons y rest₂ =>
        obtain ⟨l, r, hl⟩ := ih h₂
        refine ⟨("\x22" ++ x ++ "\x22, ").data ++ l, r, ?_⟩
        simp [rustDebugStrings, strData_append, hl, List.append_assoc]

/-! ## Claim theorems -/

/-- C1: the claim states that for an invocation such as
`run alpine:latest /bin/echo hello` the image pull is actually performed
before the command runs (token fetched, manifest retrieved, layers
extracted).  The code does not do this: `pull_image` is an `async fn`
called without `.await` at src/main.rs line 38, so its future is dropped
unexecuted.  On the fully successful invocation the trace of `run_child`
contains not a single pull event, yet the child is spawned and the run
returns exit code 0. -/
theorem c1_pull_never_performed :
    (run_child "/bin/echo" ["hello"] "alpine:latest" envAllOk 0).trace.filter isPullEvent = []
    ∧ Event.spawnEvt run_child_spawn_stdin
        ∈ (run_child "/bin/echo" ["hello"] "alpine:latest" envAllOk 0).trace
    ∧ (run_child "/bin/echo" ["hello"] "alpine:latest" envAllOk 0).result = .ok 0 :=
  ⟨rfl, by decide, rfl⟩

/-- C2: the claim states that a fetch or parse failure during the pull
aborts the invocation and the sandboxed command is never spawned.  The
code never consults the pull's outcome (the future and its `Result` are
dropped at src/main.rs line 38): an invocation whose pull would fail is
byte-for-byte identical to a successful one, the child is spawned, and
the invocation still returns exit code 0. -/
theorem c2_pull_failure_never_aborts :
    run_child "/bin/echo" ["hello"] "alpine:latest" envPullFails 0
      = run_child "/bin/echo" ["hello"] "alpine:latest" envAllOk 0
    ∧ Event.spawnEvt run_child_spawn_stdin
        ∈ (run_child "/bin/echo" ["hello"] "alpine:latest" envPullFails 0).trace
    ∧ (run_child "/bin/echo" ["hello"] "alpine:latest" envPullFails 0).result = .ok 0 :=
  ⟨rfl, by decide, rfl⟩

/-- C3 counterexample: the command path `../evil` is accepted by
`copy_command` (no rejection exists in src/main.rs lines 62-72) and its
staged copy lands at `/tmp/evil`, outside the sandbox root `/tmp/sb` —
the claim's required rejection does not happen. -/
theorem c3_counterexample :
    copy_command ["tmp", "sb"] "../evil" = .ok ["tmp", "evil"]
    ∧ isStrictlyInside ["tmp", "sb"] (copy_command_target ["tmp", "sb"] "../evil") = false :=
  ⟨rfl, rfl⟩

/-- C3 amended: for every command path, absolute or relative, whose
components (after stripping leading slashes) contain no `..` segment, the
staged copy ends up strictly inside the sandbox root; paths with `..`
segments are not rejected and may resolve outside the root. -/
theorem c3_staged_copy_inside_root (tempPath : HostPath) (command : String)
    (h1 : normalizePath tempPath = tempPath)
    (h2 : ".." ∉ pathComponents (trimLeadingSlashes command))
    (h3 : pathComponents (trimLeadingSlashes command) ≠ []) :
    copy_command tempPath command = .ok (copy_command_target tempPath command)
    ∧ isStrictlyInside tempPath (copy_command_target tempPath command) = true := by
  refine ⟨rfl, ?_⟩
  have key : copy_command_target tempPath command
      = tempPath ++ pathComponents (trimLeadingSlashes command) := by
    unfold copy_command_target normalizePath
    rw [List.foldl_append, foldl_normStep_of_no_dotdot _ _ h2]
    exact congrArg (· ++ _) h1
  rw [key]
  have hne : tempPath ++ pathComponents (trimLeadingSlashes command) ≠ tempPath := by
    intro he
    have hlen := congrArg List.length he
    simp only [List.length_append] at hlen
    exact h3 (List.eq_nil_of_length_eq_zero (by omega))
  simp [isStrictlyInside, List.take_left, hne]

/-- C3 witness: the absolute command path `/bin/echo` is staged strictly
inside the sandbox root `/tmp/sb`. -/
theorem c3_witness :
    copy_command ["tmp", "sb"] "/bin/echo"
      = .ok (copy_command_target ["tmp", "sb"] "/bin/echo")
    ∧ isStrictlyInside ["tmp", "sb"] (copy_command_target ["tmp", "sb"] "/bin/echo") = true :=
  c3_staged_copy_inside_root ["tmp", "sb"] "/bin/echo" rfl (by decide) (by decide)

/-- C5 counterexample: `a:b:c` does not contain exactly one colon, yet it
is not rejected — the parse at src/main.rs lines 88-90 takes the first
two fields and yields `(a, b)`. -/
theorem c5_counterexample :
    countColons "a:b:c".data = 2
    ∧ parse_image_ref "a:b:c".data = .ok "a".data "b".data :=
  ⟨rfl, rfl⟩

/-- C5 amended: an input of the form `name:tag` (one colon) parses to
exactly `(name, tag)`; an input with no colon causes an out-of-bounds
index panic rather than a usage-error rejection; an input with two or
more colons is not rejected either — the first two fields are used. -/
theorem c5_parse_image_reference (name tag zero many : List Char)
    (h1 : ':' ∉ name) (h2 : ':' ∉ tag)
    (h3 : countColons zero = 0) (h4 : 2 ≤ countColons many) :
    parse_image_ref (name ++ ':' :: tag) = .ok name tag
    ∧ parse_image_ref zero = .panicIndexOOB
    ∧ ∃ a b, parse_image_ref many = .ok a b := by
  refine ⟨?_, ?_, ?_⟩
  · unfold parse_image_ref
    rw [splitOnColon_append _ _ h1, splitOnColon_of_no_colon _ h2]
  · have hz : ':' ∉ zero := by
      intro hm
      have hmem : ':' ∈ zero.filter (fun c => c == ':') := by
        simp [List.mem_filter, hm]
      have : 0 < countColons zero :=
        List.length_pos.mpr (List.ne_nil_of_mem hmem)
      omega
    unfold parse_image_ref
    rw [splitOnColon_of_no_colon _ hz]
  · have hlen : 3 ≤ (splitOnColon many).length := by
      rw [length_splitOnColon]; omega
    rcases hm : splitOnColon many with _ | ⟨a, _ | ⟨b, rest⟩⟩
    · rw [hm] at hlen; simp at hlen
    · rw [hm] at hlen; simp at hlen
    · exact ⟨a, b, by unfold parse_image_ref; rw [hm]⟩

/-- C5 witness: `alpine:latest` parses to `(alpine, latest)`, `alpine`
panics, `a:b:c` is accepted. -/
theorem c5_witness :
    parse_image_ref ("alpine".data ++ ':' :: "latest".data) = .ok "alpine".data "latest".data
    ∧ parse_image_ref "alpine".data = .panicIndexOOB
    ∧ ∃ a b, parse_image_ref "a:b:c".data = .ok a b :=
  c5_parse_image_reference "alpine".data "latest".data "alpine".data "a:b:c".data
    (by decide) (by decide) (by decide) (by decide)

/-- C6: the claim (and the source's own comment at src/main.rs line 33)
states the ephemeral root is removed on every exit path, including after
the filesystem-root switch.  On a fully successful invocation the
`TempDir` destructor runs after `chroot`, so its removal resolves the
recorded path inside the new root, finds nothing, and the host directory
`/tmp/sandbox` survives (the drop event records `removed = false`); by
contrast, a failure before the root switch does remove it. -/
theorem c6_root_survives_successful_run :
    (run_child "/bin/echo" ["hello"] "alpine:latest" envAllOk 0).sys.hostDirs
      = [["tmp", "sandbox"]]
    ∧ Event.dropTempDirEvt false
        ∈ (run_child "/bin/echo" ["hello"] "alpine:latest" envAllOk 0).trace
    ∧ (run_child "/bin/echo" ["hello"] "alpine:latest"
        { envAllOk with copyOk := false } 0).sys.hostDirs = [] :=
  ⟨rfl, by decide, rfl⟩

/-- C7: the spawn attaches no input stream (`Stdio::null()`), the wait
policy returns the child's exit code when present and `1` when the child
was signal-killed, and the spawn-failure context message contains the
attempted command and each of its arguments verbatim. -/
theorem c7_spawn_and_wait_contract :
    run_child_spawn_stdin = StdioMode.null
    ∧ (∀ n : Int, wait_exit_code (some n) = n)
    ∧ wait_exit_code none = 1
    ∧ (∀ (c : String) (as : List String),
        ∃ l r, (spawn_error_context c as).data = l ++ c.data ++ r)
    ∧ (∀ (c a : String) (as : List String), a ∈ as →
        ∃ l r, (spawn_error_context c as).data = l ++ a.data ++ r) := by
  refine ⟨rfl, fun n => rfl, rfl, ?_, ?_⟩
  · intro c as
    exact ⟨"Tried to run \x27".data,
      ("\x27 with arguments " ++ rustDebugList as).data, by
        simp [spawn_error_context, strData_append, List.append_assoc]⟩
  · intro c a as h
    obtain ⟨l, r, hl⟩ := rustDebugStrings_names_each as a h
    refine ⟨("Tried to run \x27" ++ c ++ "\x27 with arguments " ++ "[").data ++ l,
      r ++ "]".data, ?_⟩
    simp [spawn_error_context, rustDebugList, strData_append, hl, List.append_assoc]

/-- C7 witness: the failure message for `/bin/echo hello` contains the
argument `hello` verbatim. -/
theorem c7_witness :
    ∃ l r, (spawn_error_context "/bin/echo" ["hello"]).data = l ++ "hello".data ++ r :=
  c7_spawn_and_wait_contract.2.2.2.2 "/bin/echo" "hello" ["hello"] (by simp)

/-- C8: `create_dev_null` creates the `dev` directory and the `dev/null`
file under the sandbox root, and both carry mode `0o555`: read and
execute for every permission class, write for none. -/
theorem c8_dev_nodes_restrictive :
    create_dev_null_nodes.map FsNode.path = [["dev"], ["dev", "null"]]
    ∧ ∀ pr : Principal,
      (canRead dev_dir_mode pr = true ∧ canExec dev_dir_mode pr = true
        ∧ canWrite dev_dir_mode pr = false)
      ∧ (canRead dev_null_mode pr = true ∧ canExec dev_null_mode pr = true
        ∧ canWrite dev_null_mode pr = false) := by
  refine ⟨rfl, fun pr => ?_⟩
  cases pr <;> exact ⟨⟨rfl, rfl, rfl⟩, ⟨rfl, rfl, rfl⟩⟩

/-- C9: the return status of `libc::unshare(CLONE_NEWPID)` (src/main.rs
lines 44-46) is discarded: whatever value the call returns, the recorded
status never influences the rest of the invocation — the child command is
still spawned and the result is the same as if the call had returned 0. -/
theorem c9_unshare_failure_nonfatal (command : String) (command_args : List String)
    (image : String) (env : Env) (r : Int)
    (h1 : env.tempdirOk = true) (h2 : env.copyOk = true) (h3 : env.devOk = true)
    (h4 : env.chrootOk = true) (h5 : env.setCwdOk = true) :
    Event.unshareEvt r ∈ (run_child command command_args image env r).trace
    ∧ Event.spawnEvt run_child_spawn_stdin
        ∈ (run_child command command_args image env r).trace
    ∧ (run_child command command_args image env r).result
        = (run_child command command_args image env 0).result := by
  cases h6 : env.spawnOk <;> cases h7 : env.waitOk <;>
    simp [run_child, h1, h2, h3, h4, h5, h6, h7]

/-- C9 witness: with the unshare call reporting failure (-1) on the
concrete all-successful environment, the child is still spawned and the
result equals the result under a successful unshare. -/
theorem c9_witness :
    Event.unshareEvt (-1)
        ∈ (run_child "/bin/echo" ["hello"] "alpine:latest" envAllOk (-1)).trace
    ∧ Event.spawnEvt run_child_spawn_stdin
        ∈ (run_child "/bin/echo" ["hello"] "alpine:latest" envAllOk (-1)).trace
    ∧ (run_child "/bin/echo" ["hello"] "alpine:latest" envAllOk (-1)).result
        = (run_child "/bin/echo" ["hello"] "alpine:latest" envAllOk 0).result :=
  c9_unshare_failure_nonfatal "/bin/echo" ["hello"] "alpine:latest" envAllOk (-1)
    rfl rfl rfl rfl rfl

/-- C10: with fewer than four command-line arguments, `main`'s read of
`args[3]` (src/main.rs line 17) is out of bounds and panics; no usage
error is reported. -/
theorem c10_too_few_args_panic (argv : List String) (h : argv.length < 4) :
    main_read_args argv = .panicIndexOutOfBounds 3 := by
  have h3 : argv[3]? = none := by
    rw [List.getElem?_eq_none_iff]
    omega
  simp [main_read_args, h3]

/-- C10 witness: the three-argument invocation `sh run alpine:latest`
panics with an out-of-bounds index. -/
theorem c10_witness :
    (["sh", "run", "alpine:latest"] : List String).length < 4
    ∧ main_read_args ["sh", "run", "alpine:latest"] = .panicIndexOutOfBounds 3 :=
  ⟨by decide, c10_too_few_args_panic ["sh", "run", "alpine:latest"] (by decide)⟩
